import Mathlib

/-!
Verification of the SP108E LED-controller device client
(`src/lib/sp108e.ts` and `src/platformAccessory.ts`).

Strings from the source (hex-encoded wire data, command opcodes,
parameters) are embedded as `List Char`; JavaScript numbers that can be
`NaN` are embedded as `Option Nat` (with `none` standing for `NaN`);
JavaScript promise results are embedded as `Except`.
-/

namespace Sp108e

/-- Value of a single hexadecimal digit character, `none` when the
character is not a hex digit. -/
def hexDigitVal (c : Char) : Option Nat :=
  if '0' ≤ c ∧ c ≤ '9' then some (c.toNat - '0'.toNat)
  else if 'a' ≤ c ∧ c ≤ 'f' then some (c.toNat - 'a'.toNat + 10)
  else if 'A' ≤ c ∧ c ≤ 'F' then some (c.toNat - 'A'.toNat + 10)
  else none

/-- JavaScript `String.prototype.substring(a, b)` (for `a ≤ b`, which is
how every call site in the source uses it): the characters at indices
`[a, b)`, clipped to the string length. -/
def jsSubstring (s : List Char) (a b : Nat) : List Char :=
  (s.drop a).take (b - a)

/-- JavaScript `parseInt(s, 16)` as used on substrings of hex-encoded
responses: parse the longest prefix of hex digits; an empty digit
prefix gives `NaN` (embedded as `none`). -/
def parseIntHex (s : List Char) : Option Nat :=
  let digits := s.takeWhile (fun c => (hexDigitVal c).isSome)
  if digits.isEmpty then none
  else some (digits.foldl (fun acc c => 16 * acc + (hexDigitVal c).getD 0) 0)

/-- JavaScript `String.prototype.padEnd(n, c)` for a one-character pad. -/
def padEnd (s : List Char) (n : Nat) (c : Char) : List Char :=
  s ++ List.replicate (n - s.length) c

/-- JavaScript `String.prototype.padStart(n, c)` for a one-character pad. -/
def padStart (s : List Char) (n : Nat) (c : Char) : List Char :=
  List.replicate (n - s.length) c ++ s

/-- `Buffer.from(hex, 'hex')` on the fully valid, even-length hex
strings the client produces: each pair of hex digits becomes one byte;
`none` on an odd-length tail or a non-hex character (the only inputs the
source ever feeds it are valid). -/
def hexToBytes : List Char → Option (List Nat)
  | [] => some []
  | [_] => none
  | c1 :: c2 :: rest => do
    let hi ← hexDigitVal c1
    let lo ← hexDigitVal c2
    let bs ← hexToBytes rest
    pure ((16 * hi + lo) :: bs)

/-- `Buffer.prototype.toString('hex')`: each byte rendered as two
lowercase hex digits. -/
def bytesToHex (bs : List Nat) : List Char :=
  bs.flatMap (fun b => [(Nat.toDigits 16 (b / 16 % 16)).headD '0',
                        (Nat.toDigits 16 (b % 16)).headD '0'])

/-! ## Protocol constants (`src/lib/sp108e.ts`, lines 17–35) -/

def CMD_GET_STATUS : List Char := ['1', '0']
def CMD_PREFIX : List Char := ['3', '8']
def CMD_SUFFIX : List Char := ['8', '3']
def CMD_TOGGLE : List Char := ['a', 'a']
def CMD_SET_ANIMATION_MODE : List Char := ['2', 'c']
def CMD_SET_COLOR : List Char := ['2', '2']
def NO_PARAMETER : List Char := ['0', '0', '0', '0', '0', '0']

/-- `ANIMATION_MODE_STATIC` from `./lib/animationModes` (not among the
sources); its value 211 is stated by the source comment
`src/platformAccessory.ts:54` ("Setting defaultAnimationNumber to
STATIC (211) ..."). -/
def ANIMATION_MODE_STATIC : Int := 211

/-- Modelled from the spec: `UNKNOWN_MODE` lives in
`./lib/animationModes`, which is not among the sources.  Spec §3 defines
it as a sentinel outside both valid numeric mode ranges (preset effects
0–179, animation modes above 180), so it is modelled as −1. -/
def UNKNOWN_MODE : Int := -1

/-- Retry bound of `send` (`SEND_MAX_RETRIES`, `sp108e.ts:81`). -/
def SEND_MAX_RETRIES : Nat := 3

/-- Base backoff delay of `send` in ms (`SEND_BASE_DELAY_MS`,
`sp108e.ts:82`). -/
def SEND_BASE_DELAY_MS : Nat := 200

/-! ## Integer-to-parameter conversion (`intToHex`, `sp108e.ts:315`) -/

/-- `intToHex` (`sp108e.ts:315–318`): `(int ?? 0).toString(16).padStart(2, '0')`.
`none` embeds the `undefined` input. -/
def intToHex (int : Option Nat) : List Char :=
  let value := int.getD 0
  padStart (Nat.toDigits 16 value) 2 '0'

/-! ## Frame encoding (`send`'s `attemptExecute`, `sp108e.ts:328`) -/

/-- The hex string written on the wire for one command
(`sp108e.ts:328`): `CMD_PREFIX + parameter.padEnd(6, '0') + cmd + CMD_SUFFIX`. -/
def encodeFrame (cmd parameter : List Char) : List Char :=
  CMD_PREFIX ++ padEnd parameter 6 '0' ++ cmd ++ CMD_SUFFIX

/-! ## Status decoding (`getStatus`, `sp108e.ts:220–243`) -/

/-- Hue/saturation/value triple returned by the external `color-convert`
library. -/
structure Hsv where
  hue : ℚ
  saturation : ℚ
  value : ℚ
deriving Repr, DecidableEq

/-- Modelled from the spec: `calculateHsv` delegates to the external
`color-convert` library, which spec §1/§6 places outside the core as a
pure, total conversion (it falls back to black on unmatched input and
never throws).  No claim inspects the produced triple, so it is modelled
as the constant black triple. -/
def calculateHsv (_hexColor : List Char) : Hsv :=
  ⟨0, 0, 0⟩

/-- `sp108eStatus` (`sp108e.ts:49–68`).  Fields produced by `parseInt`
are `Option Nat` (`none` = `NaN`); the two mode fields are `Int`
because the source replaces out-of-range (and `NaN`) classification
values by the sentinel `UNKNOWN_MODE`. -/
structure sp108eStatus where
  rawResponse : List Char
  «on» : Bool
  animationMode : Int
  presetEffectMode : Int
  animationSpeed : Option Nat
  animationSpeedPercentage : Option ℚ
  brightness : Option Nat
  brightnessPercentage : Option ℚ
  colorOrder : Option Nat
  ledsPerSegment : Option Nat
  numberOfSegments : Option Nat
  color : List Char
  hsv : Hsv
  icType : Option Nat
  recordedPatterns : Option Nat
  whiteBrightness : Option Nat
  whiteBrightnessPercentage : Option ℚ
deriving Repr

/-- The classification of the mode byte (`sp108e.ts:227`):
`anyMode > 180 ? anyMode : UNKNOWN_MODE`.  A `NaN` comparison is false
in JavaScript, so `NaN` also maps to the sentinel. -/
def classifyAnimationMode (anyMode : Option Nat) : Int :=
  match anyMode with
  | some v => if 180 < v then (v : Int) else UNKNOWN_MODE
  | none => UNKNOWN_MODE

/-- The classification of the mode byte (`sp108e.ts:228`):
`anyMode < 180 ? anyMode : UNKNOWN_MODE`. -/
def classifyPresetEffectMode (anyMode : Option Nat) : Int :=
  match anyMode with
  | some v => if v < 180 then (v : Int) else UNKNOWN_MODE
  | none => UNKNOWN_MODE

/-- Percentage derivation used throughout `getStatus`:
`parseInt(...) / 255 * 100`, `NaN` propagating. -/
def percentageOf (raw : Option Nat) : Option ℚ :=
  raw.map (fun v => (v : ℚ) / 255 * 100)

/-- The body of `getStatus` (`sp108e.ts:220–243`) applied to the raw
hex response string returned by `send`. -/
def decodeStatus (response : List Char) : sp108eStatus :=
  let anyMode := parseIntHex (jsSubstring response 4 6)
  { rawResponse := response
    «on» := jsSubstring response 2 4 = ['0', '1']
    animationMode := classifyAnimationMode anyMode
    presetEffectMode := classifyPresetEffectMode anyMode
    animationSpeed := parseIntHex (jsSubstring response 6 8)
    animationSpeedPercentage := percentageOf (parseIntHex (jsSubstring response 6 8))
    brightness := parseIntHex (jsSubstring response 8 10)
    brightnessPercentage := percentageOf (parseIntHex (jsSubstring response 8 10))
    colorOrder := parseIntHex (jsSubstring response 10 12)
    ledsPerSegment := parseIntHex (jsSubstring response 12 16)
    numberOfSegments := parseIntHex (jsSubstring response 16 20)
    color := jsSubstring response 20 26
    hsv := calculateHsv (jsSubstring response 20 26)
    icType := parseIntHex (jsSubstring response 26 28)
    recordedPatterns := parseIntHex (jsSubstring response 28 30)
    whiteBrightness := parseIntHex (jsSubstring response 30 32)
    whiteBrightnessPercentage := percentageOf (parseIntHex (jsSubstring response 30 32)) }

/-! ## Commands issued by the device-client operations -/

/-- One logical command handed to `send` (`sp108e.ts:320`): the opcode
hex string, the parameter hex string, and the expected response length
in bytes. -/
structure Command where
  cmd : List Char
  parameter : List Char
  responseLength : Nat
deriving Repr, DecidableEq

/-- `toggleOnOff` (`sp108e.ts:193–195`): `send(CMD_TOGGLE, NO_PARAMETER, 17)`. -/
def toggleOnOffCmd : Command :=
  ⟨CMD_TOGGLE, NO_PARAMETER, 17⟩

/-- The status query issued by `getStatus` (`sp108e.ts:222`):
`send(CMD_GET_STATUS, NO_PARAMETER, 17)`. -/
def getStatusCmd : Command :=
  ⟨CMD_GET_STATUS, NO_PARAMETER, 17⟩

/-- The commands `on` (`sp108e.ts:210–215`) sends, as a function of the
status its initial `getStatus` call decoded: the status query always,
then `toggleOnOff` exactly when the reported state is off. -/
def onCommands (st : sp108eStatus) : List Command :=
  getStatusCmd :: (if st.«on» then [] else [toggleOnOffCmd])

/-- The commands `off` (`sp108e.ts:200–205`) sends, as a function of the
status its initial `getStatus` call decoded. -/
def offCommands (st : sp108eStatus) : List Command :=
  getStatusCmd :: (if st.«on» then [toggleOnOffCmd] else [])

/-- Number of power-toggle commands in a command list. -/
def countToggles (cs : List Command) : Nat :=
  cs.countP (fun c => c.cmd = CMD_TOGGLE)

/-- Number of status-query commands in a command list. -/
def countStatusReads (cs : List Command) : Nat :=
  cs.countP (fun c => c.cmd = CMD_GET_STATUS)

/-- Modelled from the spec: the device side of the power toggle.  Spec
§6 defines the toggle opcode's effect and the status response's power
flag; the device is not part of the sources, so its power state is a
`Bool` that the toggle command flips and no other command changes. -/
def applyCommand (power : Bool) (c : Command) : Bool :=
  if c.cmd = CMD_TOGGLE then !power else power

/-- Modelled from the spec: the 17-byte (34 hex character) status
response of a device whose power state is `power`; spec §6 places the
power flag at byte offset 1 (`'01'` when on), all other fields zero
here. -/
def deviceResponse (power : Bool) : List Char :=
  ['0', '0'] ++ (if power then ['0', '1'] else ['0', '0']) ++ List.replicate 30 '0'

/-- One `on()` call against a device with power state `power`: the
client decodes the device's status response and sends `onCommands`;
the device applies them.  Returns the resulting device power and the
commands sent. -/
def onCall (power : Bool) : Bool × List Command :=
  let cmds := onCommands (decodeStatus (deviceResponse power))
  (cmds.foldl applyCommand power, cmds)

/-- `setColor` (`sp108e.ts:277–283`): reads the status, sends
`CMD_SET_ANIMATION_MODE` with the static mode exactly when the decoded
`animationMode` equals `0`, then sends `CMD_SET_COLOR`.  This returns
the commands sent after the initial status read, as a function of the
decoded status. -/
def setColorCommands (st : sp108eStatus) (hexColor : List Char) : List Command :=
  (if st.animationMode = 0 then
    [⟨CMD_SET_ANIMATION_MODE, intToHex (some ANIMATION_MODE_STATIC.toNat), 0⟩]
  else []) ++ [⟨CMD_SET_COLOR, hexColor, 0⟩]

/-! ## The accessory's preset handling (`platformAccessory.ts:618–663`) -/

/-- The accessory state touched by `setPresetModeOn`: the cached
`deviceStatus` from the last poll, the `presetOn` flag and the
remembered `presetEffectNumber`. -/
structure AccessoryState where
  deviceStatus : sp108eStatus
  presetOn : Bool
  presetEffectNumber : Int

/-- `setPresetModeOn` (`platformAccessory.ts:618–663`), state part: the
two early returns, then `presetOn := value`, and when activating, the
writes to `presetEffectNumber` and — in place — to
`deviceStatus.presetEffectMode` (line 651).  The network sends it also
performs (`device.on`, `device.setPresetMode` / `device.setAnimationMode`)
go through the device client and never write to the accessory state or
the cached status, so they do not appear in the state transition. -/
def setPresetModeOnModel (st : AccessoryState) (value : Bool) : AccessoryState :=
  if value = true ∧ st.deviceStatus.presetEffectMode ≠ UNKNOWN_MODE ∧ st.presetOn = true then
    st
  else if value = false ∧ st.deviceStatus.presetEffectMode = UNKNOWN_MODE ∧ st.presetOn = false then
    st
  else
    let st1 := { st with presetOn := value }
    if value then
      let currentPresetMode :=
        if st1.deviceStatus.presetEffectMode ≠ UNKNOWN_MODE then
          st1.deviceStatus.presetEffectMode
        else st1.presetEffectNumber
      { st1 with
        presetEffectNumber := currentPresetMode
        deviceStatus := { st1.deviceStatus with presetEffectMode := currentPresetMode } }
    else st1

/-! ## One send attempt (`attemptExecute`, `sp108e.ts:321–360`) -/

/-- The failures one attempt can hit: `ensureConnected` failing, the
socket write failing, or the 5000 ms read timeout firing. -/
inductive SendError where
  | connectFailed
  | writeFailed
  | readTimeout
deriving Repr, DecidableEq

/-- Environment outcome of the raced read (`sp108e.ts:345`): the timeout
promise rejects first, or the read resolves — possibly with an
`undefined` buffer (embedded as `none`) when the peer closed the
stream. -/
inductive ReadOutcome where
  | timeout
  | resolved (buf : Option (List Nat))
deriving Repr, DecidableEq

/-- `attemptExecute` (`sp108e.ts:321–360`) with the environment's
behaviour (connection, write, read outcome) as parameters: returns the
promise result and the frames that reached the wire.  A resolved read
with an `undefined` buffer yields `''` (`sp108e.ts:349`); a write-only
command returns `''` after the pacing sleep. -/
def attemptExecute (cmd parameter : List Char) (responseLength : Nat)
    (connectOk writeOk : Bool) (ro : ReadOutcome) :
    Except SendError (List Char) × List (List Char) :=
  if connectOk = false then (.error .connectFailed, [])
  else if writeOk = false then (.error .writeFailed, [])
  else if 0 < responseLength then
    match ro with
    | .timeout => (.error .readTimeout, [encodeFrame cmd parameter])
    | .resolved none => (.ok [], [encodeFrame cmd parameter])
    | .resolved (some bs) => (.ok (bytesToHex bs), [encodeFrame cmd parameter])
  else (.ok [], [encodeFrame cmd parameter])

/-! ## Retry loop (`executeWithRetries`, `sp108e.ts:362–382`) -/

/-- The `for (attempt = 0; attempt <= SEND_MAX_RETRIES; attempt++)` loop
of `executeWithRetries`, with the outcome of each attempt supplied by
`outcomes` and the loop bound made structural through `fuel` (the entry
point passes `SEND_MAX_RETRIES + 1`, exactly the iterations the source
loop can run).  Returns the promise result, the number of attempts
made, and the backoff delays slept in order.  The `fuel = 0` case is
the source's post-loop `throw lastErr` (`sp108e.ts:381`, unreachable
from the entry point). -/
def retryGo (outcomes : Nat → Except SendError (List Char)) :
    Nat → Nat → Option SendError → Except SendError (List Char) × Nat × List Nat
  | 0, _, lastErr => (.error (lastErr.getD .connectFailed), 0, [])
  | fuel + 1, attempt, _ =>
    match outcomes attempt with
    | .ok s => (.ok s, 1, [])
    | .error e =>
      if attempt < SEND_MAX_RETRIES then
        let rest := retryGo outcomes fuel (attempt + 1) (some e)
        (rest.1, rest.2.1 + 1, SEND_BASE_DELAY_MS * 2 ^ attempt :: rest.2.2)
      else
        (.error e, 1, [])

/-- `executeWithRetries` (`sp108e.ts:362–382`). -/
def executeWithRetries (outcomes : Nat → Except SendError (List Char)) :
    Except SendError (List Char) × Nat × List Nat :=
  retryGo outcomes (SEND_MAX_RETRIES + 1) 0 none

/-! ## The send queue (`send`, `sp108e.ts:384–390`) -/

/-- One unit of work submitted to the send queue: the frames it writes
on the wire when it runs, and the result its promise settles with. -/
structure WorkUnit where
  frames : List (List Char)
  result : Except SendError (List Char)

/-- The serializer's state: the settled state of the `_sendQueue` tail
promise, and the frames observed on the wire so far. -/
structure SerializerState where
  tail : Except SendError Unit
  wire : List (List Char)

/-- The queue before any submission: `_sendQueue = Promise.resolve()`
(`sp108e.ts:80`). -/
def initSerializer : SerializerState :=
  ⟨.ok (), []⟩

/-- One call to `send` at the queue level (`sp108e.ts:384–390`):
`queued = _sendQueue.then(() => executeWithRetries())` runs the unit
after the tail settles — skipped (with the rejection propagating) if
the tail is rejected — and `_sendQueue = queued.catch(...)` makes the
new tail settle successfully either way.  Returns the new state and
the result `send` returns to its caller. -/
def submitModel (st : SerializerState) (w : WorkUnit) :
    SerializerState × Except SendError (List Char) :=
  match st.tail with
  | .ok _ =>
    let queued := w.result
    ({ tail := match queued with | .ok _ => .ok () | .error _ => .ok ()
       wire := st.wire ++ w.frames }, queued)
  | .error e =>
    ({ tail := .ok (), wire := st.wire }, .error e)

/-- A sequence of `send` calls in submission order. -/
def submitAll (st : SerializerState) :
    List WorkUnit → SerializerState × List (Except SendError (List Char))
  | [] => (st, [])
  | w :: ws =>
    let s1 := submitModel st w
    let s2 := submitAll s1.1 ws
    (s2.1, s1.2 :: s2.2)

/-! ## Helper lemmas -/

theorem hexToBytes_total (l : List Char) (hhex : ∀ c ∈ l, (hexDigitVal c).isSome)
    (heven : l.length % 2 = 0) : ∃ bs, hexToBytes l = some bs ∧ bs.length = l.length / 2 := by
  induction l using hexToBytes.induct with
  | case1 => exact ⟨[], rfl, rfl⟩
  | case2 c => simp at heven
  | case3 c1 c2 rest ih =>
    obtain ⟨h1, hv1⟩ := Option.isSome_iff_exists.mp (hhex c1 (by simp))
    obtain ⟨h2, hv2⟩ := Option.isSome_iff_exists.mp (hhex c2 (by simp))
    obtain ⟨bs, hbs, hlen⟩ := ih (fun c hc => hhex c (by simp [hc])) (by simp at heven ⊢; omega)
    refine ⟨(16 * h1 + h2) :: bs, ?_, ?_⟩
    · simp [hexToBytes, hv1, hv2, hbs]
    · simp [hlen]; omega

theorem parseIntHex_cons_isSome (c : Char) (rest : List Char)
    (hc : (hexDigitVal c).isSome) : (parseIntHex (c :: rest)).isSome := by
  simp [parseIntHex, List.takeWhile_cons, hc]

theorem mem_of_mem_jsSubstring {c : Char} {s : List Char} {a b : Nat}
    (hc : c ∈ jsSubstring s a b) : c ∈ s :=
  List.drop_subset a s (List.take_subset _ _ hc)

theorem jsSubstring_ne_nil (s : List Char) (a b : Nat) (ha : a < s.length)
    (hab : a < b) : jsSubstring s a b ≠ [] := by
  apply List.ne_nil_of_length_pos
  simp [jsSubstring]
  omega

theorem parseIntHex_substring_isSome (s : List Char) (a b : Nat) (ha : a < s.length)
    (hab : a < b) (hhex : ∀ c ∈ s, (hexDigitVal c).isSome) :
    (parseIntHex (jsSubstring s a b)).isSome := by
  cases h : jsSubstring s a b with
  | nil => exact absurd h (jsSubstring_ne_nil s a b ha hab)
  | cons c rest =>
    exact parseIntHex_cons_isSome c rest (hhex c (mem_of_mem_jsSubstring (h ▸ List.mem_cons_self c rest)))

theorem classifyAnimationMode_cases (anyMode : Option Nat) :
    classifyAnimationMode anyMode = UNKNOWN_MODE ∨ 180 < classifyAnimationMode anyMode := by
  cases anyMode with
  | none => exact Or.inl rfl
  | some v =>
    by_cases h : 180 < v
    · right
      simp [classifyAnimationMode, h]
    · left
      simp [classifyAnimationMode, h]

theorem decodeStatus_animationMode_ne_zero (response : List Char) :
    (decodeStatus response).animationMode ≠ 0 := by
  have h := classifyAnimationMode_cases (parseIntHex (jsSubstring response 4 6))
  have hval : (decodeStatus response).animationMode
      = classifyAnimationMode (parseIntHex (jsSubstring response 4 6)) := rfl
  rw [hval]
  rcases h with h | h
  · rw [h]; decide
  · omega

theorem executeWithRetries_char (outcomes : Nat → Except SendError (List Char)) :
    executeWithRetries outcomes =
      match outcomes 0 with
      | .ok s => (.ok s, 1, [])
      | .error _ => match outcomes 1 with
        | .ok s => (.ok s, 2, [200])
        | .error _ => match outcomes 2 with
          | .ok s => (.ok s, 3, [200, 400])
          | .error _ => match outcomes 3 with
            | .ok s => (.ok s, 4, [200, 400, 800])
            | .error e => (.error e, 4, [200, 400, 800]) := by
  rcases h0 : outcomes 0 with e0 | s0 <;>
    rcases h1 : outcomes 1 with e1 | s1 <;>
    rcases h2 : outcomes 2 with e2 | s2 <;>
    rcases h3 : outcomes 3 with e3 | s3 <;>
    simp [executeWithRetries, retryGo, SEND_MAX_RETRIES, SEND_BASE_DELAY_MS, h0, h1, h2, h3]

theorem submitAll_ok_tail (ws : List WorkUnit) (wire : List (List Char)) :
    submitAll ⟨.ok (), wire⟩ ws
      = (⟨.ok (), wire ++ (ws.map (fun w => w.frames)).flatten⟩,
         ws.map (fun w => w.result)) := by
  induction ws generalizing wire with
  | nil => simp [submitAll]
  | cons w ws ih =>
    cases hw : w.result with
    | ok s => simp [submitAll, submitModel, hw, ih]
    | error e => simp [submitAll, submitModel, hw, ih]

/-! ## Claim theorems -/

/-- C1: for every sequence of `send` calls, the queued units of work run
strictly one after another in first-submitted-first-executed order — the
wire sees the units' frames concatenated in submission order, never
interleaved — every unit's caller receives that unit's own result, and a
failing unit does not prevent any later-submitted unit from executing
(the tail promise is recovered by `catch`, so the chain never breaks). -/
theorem claim_C1_serializer_fifo (ws : List WorkUnit) :
    (submitAll initSerializer ws).2 = ws.map (fun w => w.result) ∧
    (submitAll initSerializer ws).1.wire = (ws.map (fun w => w.frames)).flatten ∧
    (submitAll initSerializer ws).1.tail = .ok () := by
  rw [initSerializer, submitAll_ok_tail]
  simp

/-- C3: for every invocation of `send`, at most 4 attempts are made; the
backoff delays observed are the prefix `200 * 2 ^ i` (200, 400, 800 ms)
matching the number of failed attempts that were retried; and when all
4 attempts fail, the loop stops (no 5th attempt, exactly 4 made) and
the caller receives the last underlying error, i.e. attempt 3's. -/
theorem claim_C3_retry_policy (outcomes : Nat → Except SendError (List Char)) :
    (executeWithRetries outcomes).2.1 ≤ 4 ∧
    (executeWithRetries outcomes).2.2
      = List.take ((executeWithRetries outcomes).2.1 - 1) [200, 400, 800] ∧
    ((∀ i, i < 4 → ∃ e, outcomes i = .error e) →
      (executeWithRetries outcomes).2.1 = 4 ∧
      (executeWithRetries outcomes).1 = outcomes 3) := by
  rw [executeWithRetries_char]
  rcases h0 : outcomes 0 with e0 | s0 <;>
    rcases h1 : outcomes 1 with e1 | s1 <;>
    rcases h2 : outcomes 2 with e2 | s2 <;>
    rcases h3 : outcomes 3 with e3 | s3 <;>
    simp only [h0, h1, h2, h3] <;>
    refine ⟨by simp, by simp, fun hall => ?_⟩ <;>
    first
      | exact ⟨trivial, trivial⟩
      | exact ⟨rfl, rfl⟩
      | (obtain ⟨e, he⟩ := hall 0 (by omega); rw [h0] at he; exact Except.noConfusion he)
      | (obtain ⟨e, he⟩ := hall 1 (by omega); rw [h1] at he; exact Except.noConfusion he)
      | (obtain ⟨e, he⟩ := hall 2 (by omega); rw [h2] at he; exact Except.noConfusion he)

/-- C3 witness: with every attempt failing with a read timeout, exactly
4 attempts are made, the backoffs are 200, 400, 800 ms, and the last
error surfaces. -/
theorem claim_C3_retry_policy_witness :
    (executeWithRetries (fun _ => .error .readTimeout)).2.1 = 4 ∧
    (executeWithRetries (fun _ => .error .readTimeout)).1 = .error .readTimeout ∧
    (executeWithRetries (fun _ => .error .readTimeout)).2.2 = [200, 400, 800] := by
  have h := claim_C3_retry_policy (fun _ => .error .readTimeout)
  have hall := h.2.2 (fun i _ => ⟨.readTimeout, rfl⟩)
  refine ⟨hall.1, hall.2, ?_⟩
  rw [h.2.1, hall.1]
  decide

/-- C4: for every one-byte opcode and every hex parameter of at most 3
bytes (6 hex characters), the encoded frame is laid out as
`PREFIX || parameter right-padded to 3 bytes with zero digits || opcode || SUFFIX`,
its byte decoding has exactly 6 bytes, and encoding is deterministic. -/
theorem claim_C4_frame_encoding (cmd parameter : List Char)
    (hclen : cmd.length = 2) (hchex : ∀ c ∈ cmd, (hexDigitVal c).isSome)
    (hplen : parameter.length ≤ 6) (hphex : ∀ c ∈ parameter, (hexDigitVal c).isSome) :
    encodeFrame cmd parameter
      = CMD_PREFIX ++ (parameter ++ List.replicate (6 - parameter.length) '0')
          ++ cmd ++ CMD_SUFFIX
    ∧ (∃ bs, hexToBytes (encodeFrame cmd parameter) = some bs ∧ bs.length = 6)
    ∧ (∀ cmd2 parameter2, cmd2 = cmd → parameter2 = parameter →
        encodeFrame cmd2 parameter2 = encodeFrame cmd parameter) := by
  refine ⟨rfl, ?_, ?_⟩
  · have hlen : (encodeFrame cmd parameter).length = 12 := by
      simp [encodeFrame, padEnd, CMD_PREFIX, CMD_SUFFIX, hclen]
      omega
    have hall : ∀ c ∈ encodeFrame cmd parameter, (hexDigitVal c).isSome := by
      intro c hc
      rw [encodeFrame] at hc
      rcases List.mem_append.mp hc with hc | h
      rotate_left
      · simp [CMD_SUFFIX] at h
        rcases h with rfl | rfl <;> decide
      rcases List.mem_append.mp hc with hc | h
      rotate_left
      · exact hchex c h
      rcases List.mem_append.mp hc with h | h
      · simp [CMD_PREFIX] at h
        rcases h with rfl | rfl <;> decide
      · rcases List.mem_append.mp h with h | h
        · exact hphex c h
        · rw [List.eq_of_mem_replicate h]; decide
    obtain ⟨bs, hbs, hl⟩ := hexToBytes_total _ hall (by rw [hlen])
    exact ⟨bs, hbs, by rw [hl, hlen]⟩
  · intro cmd2 parameter2 h1 h2
    rw [h1, h2]

/-- C4 witness: encoding the toggle opcode with the default parameter
yields the 6-byte frame `38 00 00 00 aa 83`. -/
theorem claim_C4_frame_encoding_witness :
    CMD_TOGGLE.length = 2 ∧ NO_PARAMETER.length ≤ 6 ∧
    (∃ bs, hexToBytes (encodeFrame CMD_TOGGLE NO_PARAMETER) = some bs ∧ bs.length = 6) := by
  have h := claim_C4_frame_encoding CMD_TOGGLE NO_PARAMETER (by decide) (by decide)
    (by decide) (by decide)
  exact ⟨by decide, by decide, h.2.1⟩

/-- C2 counterexample: a status response whose classification byte is
exactly 180 (`'b4'`) decodes with BOTH mode fields equal to the
`UNKNOWN_MODE` sentinel — the byte is neither above 180 (animation)
nor below 180 (preset), so contrary to the claim it is not interpreted
as `presetEffectMode`, and zero (not exactly one) of the two fields is
known. -/
theorem claim_C2_boundary_both_unknown :
    parseIntHex (jsSubstring (['0', '0', '0', '1', 'b', '4'] ++ List.replicate 28 '0') 4 6)
      = some 180 ∧
    (decodeStatus (['0', '0', '0', '1', 'b', '4'] ++ List.replicate 28 '0')).animationMode
      = UNKNOWN_MODE ∧
    (decodeStatus (['0', '0', '0', '1', 'b', '4'] ++ List.replicate 28 '0')).presetEffectMode
      = UNKNOWN_MODE ∧
    UNKNOWN_MODE ≠ (180 : Int) := by
  decide

/-- C2 (amended): the classification byte `b` is interpreted as
`animationMode` when `b > 180` and as `presetEffectMode` when
`b < 180`; at `b = 180` exactly (and when the byte fails to parse)
both fields are the `UNKNOWN` sentinel, so at most one — not always
exactly one — of the two fields is known; `b = 200` yields
`animationMode = 200` with `presetEffectMode = UNKNOWN`, and `b = 50`
yields `presetEffectMode = 50` with `animationMode = UNKNOWN`. -/
theorem claim_C2_mode_classification (response : List Char) :
    ((decodeStatus response).animationMode ≠ UNKNOWN_MODE →
      (decodeStatus response).presetEffectMode = UNKNOWN_MODE) ∧
    (∀ v : Nat, parseIntHex (jsSubstring response 4 6) = some v →
      (180 < v → (decodeStatus response).animationMode = v ∧
        (decodeStatus response).presetEffectMode = UNKNOWN_MODE) ∧
      (v < 180 → (decodeStatus response).presetEffectMode = v ∧
        (decodeStatus response).animationMode = UNKNOWN_MODE ∧ (v : Int) ≠ UNKNOWN_MODE) ∧
      (v = 180 → (decodeStatus response).animationMode = UNKNOWN_MODE ∧
        (decodeStatus response).presetEffectMode = UNKNOWN_MODE)) ∧
    (parseIntHex (jsSubstring response 4 6) = none →
      (decodeStatus response).animationMode = UNKNOWN_MODE ∧
      (decodeStatus response).presetEffectMode = UNKNOWN_MODE) := by
  have ham : (decodeStatus response).animationMode
      = classifyAnimationMode (parseIntHex (jsSubstring response 4 6)) := rfl
  have hpm : (decodeStatus response).presetEffectMode
      = classifyPresetEffectMode (parseIntHex (jsSubstring response 4 6)) := rfl
  refine ⟨?_, ?_, ?_⟩
  · intro h
    rw [ham] at h
    rw [hpm]
    cases hv : parseIntHex (jsSubstring response 4 6) with
    | none => rfl
    | some v =>
      rw [hv] at h
      by_cases h180 : 180 < v
      · simp [classifyPresetEffectMode, UNKNOWN_MODE]
        omega
      · exfalso
        apply h
        simp [classifyAnimationMode, h180]
  · intro v hv
    rw [ham, hpm, hv]
    refine ⟨fun h => ?_, fun h => ?_, fun h => ?_⟩
    · constructor
      · simp [classifyAnimationMode, h]
      · simp [classifyPresetEffectMode, UNKNOWN_MODE]
        omega
    · refine ⟨by simp [classifyPresetEffectMode, h], ?_, ?_⟩
      · simp [classifyAnimationMode, UNKNOWN_MODE]
        omega
      · simp [UNKNOWN_MODE]
    · subst h
      exact ⟨by decide, by decide⟩
  · intro hv
    rw [ham, hpm, hv]
    exact ⟨rfl, rfl⟩

/-- C2 witness: classification byte `'c8'` (200) decodes to
`animationMode = 200, presetEffectMode = UNKNOWN`; byte `'32'` (50)
decodes to `presetEffectMode = 50, animationMode = UNKNOWN`. -/
theorem claim_C2_mode_classification_witness :
    (decodeStatus (['0', '0', '0', '1', 'c', '8'] ++ List.replicate 28 '0')).animationMode
      = 200 ∧
    (decodeStatus (['0', '0', '0', '1', 'c', '8'] ++ List.replicate 28 '0')).presetEffectMode
      = UNKNOWN_MODE ∧
    (decodeStatus (['0', '0', '0', '1', '3', '2'] ++ List.replicate 28 '0')).presetEffectMode
      = 50 ∧
    (decodeStatus (['0', '0', '0', '1', '3', '2'] ++ List.replicate 28 '0')).animationMode
      = UNKNOWN_MODE := by
  have h200 := (claim_C2_mode_classification
    (['0', '0', '0', '1', 'c', '8'] ++ List.replicate 28 '0')).2.1 200 (by decide)
  have h50 := (claim_C2_mode_classification
    (['0', '0', '0', '1', '3', '2'] ++ List.replicate 28 '0')).2.1 50 (by decide)
  exact ⟨(h200.1 (by decide)).1, (h200.1 (by decide)).2,
    (h50.2.1 (by decide)).1, (h50.2.1 (by decide)).2.1⟩

/-- C5 counterexample: decoding a status whose classification byte is
200 — an animation mode different from static (211) — and then calling
`setColor` sends only the set-color command: the mode-switch branch is
not taken even though the device is not in static-color animation
mode, contrary to the claim's "if and only if". -/
theorem claim_C5_no_switch_when_not_static :
    (decodeStatus (['0', '0', '0', '1', 'c', '8'] ++ List.replicate 28 '0')).animationMode
      ≠ ANIMATION_MODE_STATIC ∧
    setColorCommands (decodeStatus (['0', '0', '0', '1', 'c', '8'] ++ List.replicate 28 '0'))
        ['f', 'f', '0', '0', '0', '0']
      = [⟨CMD_SET_COLOR, ['f', 'f', '0', '0', '0', '0'], 0⟩] := by
  decide

/-- C5 (amended): `setColor` sends the set-animation-mode command only
when the decoded `animationMode` equals 0, and no decoded status ever
satisfies that (the decoder yields either a value above 180 or the
`UNKNOWN` sentinel), so for every status response and every color,
`setColor` sends exactly the set-color command after its status
read. -/
theorem claim_C5_setColor_commands (response hexColor : List Char) :
    setColorCommands (decodeStatus response) hexColor
      = [⟨CMD_SET_COLOR, hexColor, 0⟩] := by
  simp [setColorCommands, decodeStatus_animationMode_ne_zero response]

/-- C6 counterexample: with a freshly decoded status whose
`presetEffectMode` is the `UNKNOWN` sentinel cached as the accessory's
`deviceStatus`, activating the preset switch (`setPresetModeOn(true)`
with remembered preset number 5) overwrites the cached status's
`presetEffectMode` field with 5 — the decoded `DeviceStatus` is mutated
in place (`platformAccessory.ts:651`), contrary to the claim. -/
theorem claim_C6_preset_mutation :
    (decodeStatus (['0', '0', '0', '1', 'c', '8'] ++ List.replicate 28 '0')).presetEffectMode
      = UNKNOWN_MODE ∧
    (setPresetModeOnModel
        ⟨decodeStatus (['0', '0', '0', '1', 'c', '8'] ++ List.replicate 28 '0'), false, 5⟩
        true).deviceStatus.presetEffectMode = 5 ∧
    (5 : Int) ≠ UNKNOWN_MODE := by
  decide

/-- C6 (amended): `getStatus` decodes a fresh status value from each
response, but the accessory's `setPresetModeOn` is an exception to
immutability: activating a preset while the cached status reports no
known preset effect overwrites the cached `DeviceStatus`'s
`presetEffectMode` field in place with the remembered preset number
(`platformAccessory.ts:651`), leaving every other field unchanged. -/
theorem claim_C6_setPresetModeOn_overwrites (st : AccessoryState)
    (hoff : st.presetOn = false)
    (hunk : st.deviceStatus.presetEffectMode = UNKNOWN_MODE) :
    (setPresetModeOnModel st true).deviceStatus
      = { st.deviceStatus with presetEffectMode := st.presetEffectNumber } ∧
    (setPresetModeOnModel st true).presetEffectNumber = st.presetEffectNumber ∧
    (setPresetModeOnModel st true).presetOn = true := by
  simp [setPresetModeOnModel, hoff, hunk]

/-- C6 witness: the amended behaviour at a concrete decoded status. -/
theorem claim_C6_setPresetModeOn_overwrites_witness :
    (setPresetModeOnModel
        ⟨decodeStatus (['0', '0', '0', '1', 'c', '8'] ++ List.replicate 28 '0'), false, 7⟩
        true).deviceStatus
      = { decodeStatus (['0', '0', '0', '1', 'c', '8'] ++ List.replicate 28 '0') with
          presetEffectMode := 7 } ∧
    (setPresetModeOnModel
        ⟨decodeStatus (['0', '0', '0', '1', 'c', '8'] ++ List.replicate 28 '0'), false, 7⟩
        true).presetOn = true := by
  have h := claim_C6_setPresetModeOn_overwrites
    ⟨decodeStatus (['0', '0', '0', '1', 'c', '8'] ++ List.replicate 28 '0'), false, 7⟩
    rfl (by decide)
  exact ⟨h.1, h.2.2⟩

/-- C7 counterexample: decoding the empty (hence malformed: too short)
response does not fail at all — there is no `DecodeError` anywhere in
the code — it returns a status whose numeric fields are all `NaN`
(embedded `none`) and whose mode fields are the `UNKNOWN` sentinel,
contrary to the claim that malformed input fails with a
`DecodeError`. -/
theorem claim_C7_empty_decodes :
    decodeStatus []
      = ⟨[], false, UNKNOWN_MODE, UNKNOWN_MODE, none, none, none, none, none, none, none,
         [], calculateHsv [], none, none, none, none⟩ := by
  rfl

/-- C7 (amended): status decoding is total — it never fails on any
input.  On a well-formed 17-byte (34 hex character) response every
numeric field is defined; on malformed (short/non-hex) input the
decoder still returns a status, with the affected numeric fields `NaN`
instead of any error being raised. -/
theorem claim_C7_decode_total (response : List Char) (hlen : response.length = 34)
    (hhex : ∀ c ∈ response, (hexDigitVal c).isSome) :
    (decodeStatus response).animationSpeed.isSome ∧
    (decodeStatus response).animationSpeedPercentage.isSome ∧
    (decodeStatus response).brightness.isSome ∧
    (decodeStatus response).brightnessPercentage.isSome ∧
    (decodeStatus response).colorOrder.isSome ∧
    (decodeStatus response).ledsPerSegment.isSome ∧
    (decodeStatus response).numberOfSegments.isSome ∧
    (decodeStatus response).icType.isSome ∧
    (decodeStatus response).recordedPatterns.isSome ∧
    (decodeStatus response).whiteBrightness.isSome ∧
    (decodeStatus response).whiteBrightnessPercentage.isSome := by
  have key : ∀ a b : Nat, a < 34 → a < b →
      (parseIntHex (jsSubstring response a b)).isSome := by
    intro a b ha hab
    exact parseIntHex_substring_isSome response a b (by omega) hab hhex
  refine ⟨key 6 8 (by omega) (by omega), ?_, key 8 10 (by omega) (by omega), ?_,
    key 10 12 (by omega) (by omega), key 12 16 (by omega) (by omega),
    key 16 20 (by omega) (by omega), key 26 28 (by omega) (by omega),
    key 28 30 (by omega) (by omega), key 30 32 (by omega) (by omega), ?_⟩
  · obtain ⟨x, hx⟩ := Option.isSome_iff_exists.mp (key 6 8 (by omega) (by omega))
    simp [decodeStatus, percentageOf, hx]
  · obtain ⟨x, hx⟩ := Option.isSome_iff_exists.mp (key 8 10 (by omega) (by omega))
    simp [decodeStatus, percentageOf, hx]
  · obtain ⟨x, hx⟩ := Option.isSome_iff_exists.mp (key 30 32 (by omega) (by omega))
    simp [decodeStatus, percentageOf, hx]

/-- C7 witness: the all-zero 34-character response decodes with every
numeric field defined. -/
theorem claim_C7_decode_total_witness :
    (List.replicate 34 '0').length = 34 ∧
    (decodeStatus (List.replicate 34 '0')).brightness.isSome ∧
    (decodeStatus (List.replicate 34 '0')).whiteBrightnessPercentage.isSome := by
  have h := claim_C7_decode_total (List.replicate 34 '0') (by decide) (by decide)
  exact ⟨by decide, h.2.2.1, h.2.2.2.2.2.2.2.2.2.2⟩

/-- C8: `on` (and symmetrically `off`) always performs the status read
and issues the toggle command exactly when the reported power state
differs from the desired one; two consecutive `on()` calls against a
device that is already on perform two status reads and zero toggles,
leaving the device on. -/
theorem claim_C8_power_idempotence :
    (∀ st : sp108eStatus,
      countToggles (onCommands st) = (if st.«on» then 0 else 1) ∧
      countToggles (offCommands st) = (if st.«on» then 1 else 0) ∧
      countStatusReads (onCommands st) = 1 ∧
      countStatusReads (offCommands st) = 1) ∧
    countToggles ((onCall true).2 ++ (onCall (onCall true).1).2) = 0 ∧
    countStatusReads ((onCall true).2 ++ (onCall (onCall true).1).2) = 2 ∧
    (onCall (onCall true).1).1 = true := by
  refine ⟨fun st => ?_, by decide, by decide, by decide⟩
  cases h : st.«on» <;>
    simp [onCommands, offCommands, countToggles, countStatusReads, h,
      getStatusCmd, toggleOnOffCmd, CMD_GET_STATUS, CMD_TOGGLE, List.countP_cons]

/-- C9 counterexample: `intToHex` does not clamp to 0–255: the input
256 encodes to the three-character string `'100'`, not to a 2-character
byte. -/
theorem claim_C9_no_clamping :
    intToHex (some 256) = ['1', '0', '0'] ∧ (intToHex (some 256)).length ≠ 2 := by
  decide

set_option maxRecDepth 4000 in
/-- C9 (amended): `intToHex` applies no clamping; for every input
already in the byte range 0–255 it encodes exactly 2 hexadecimal
characters, left-padded with a zero digit when the value is below 16,
and the two characters parse back to the input; the `undefined` input
is treated as 0. -/
theorem claim_C9_intToHex_bytes (n : Nat) (h : n ≤ 255) :
    (intToHex (some n)).length = 2 ∧
    (n < 16 → (intToHex (some n)).headD ' ' = '0') ∧
    parseIntHex (intToHex (some n)) = some n ∧
    intToHex none = ['0', '0'] := by
  revert h
  revert n
  decide

/-- C9 witness: the amended behaviour at 5 (below 16, zero-padded) via
the theorem. -/
theorem claim_C9_intToHex_bytes_witness :
    (intToHex (some 5)).length = 2 ∧ (intToHex (some 5)).headD ' ' = '0' ∧
    parseIntHex (intToHex (some 5)) = some 5 := by
  have h := claim_C9_intToHex_bytes 5 (by decide)
  exact ⟨h.1, h.2.1 (by decide), h.2.2.1⟩

/-- C10: when `send` expects a response (`responseLength > 0`) and the
socket read resolves before the timeout but with an `undefined` buffer,
the attempt succeeds with the empty string — no `IOError` or
`ReadTimeout` is observed — so `getStatus` goes on to decode the empty
response (every numeric field `NaN`, power off). -/
theorem claim_C10_undefined_buffer_empty_success (cmd parameter : List Char)
    (responseLength : Nat) (h : 0 < responseLength) :
    (attemptExecute cmd parameter responseLength true true (.resolved none)).1
      = .ok [] ∧
    (∀ e : SendError,
      (attemptExecute cmd parameter responseLength true true (.resolved none)).1
        ≠ .error e) ∧
    (decodeStatus []).«on» = false ∧
    (decodeStatus []).brightness = none := by
  refine ⟨?_, ?_, by decide, by decide⟩ <;>
    simp [attemptExecute, h]

/-- C10 witness: the status query itself (17-byte expected response)
with an `undefined` read buffer. -/
theorem claim_C10_undefined_buffer_empty_success_witness :
    (attemptExecute CMD_GET_STATUS NO_PARAMETER 17 true true (.resolved none)).1
      = .ok [] ∧
    (decodeStatus []).«on» = false := by
  have h := claim_C10_undefined_buffer_empty_success CMD_GET_STATUS NO_PARAMETER 17
    (by decide)
  exact ⟨h.1, h.2.2.1⟩

end Sp108e
